import Mathlib

/-!
Verification of the WBTC scalping bot core (signal detection, position state
machine, slippage and execution paths) against its natural-language
specification.  Prices, indicator values and thresholds are embedded as
rationals; JavaScript `null` becomes `Option`; the mutable singleton state of
each module becomes an explicit state record.
-/

namespace TradingBot

/- ## Configuration (`config/index.js`, `trading` and `indicators` sections) -/

/-- The constant `config.trading.minProfitThreshold = 0.006`. -/
def minProfitThreshold : ℚ := 6 / 1000

/-- The constant `config.trading.trailingStopLoss = 0.005`. -/
def trailingStopLoss : ℚ := 5 / 1000

/-- The constant `config.trading.maxSlippage = 0.002`. -/
def maxSlippage : ℚ := 2 / 1000

/-- The constant `config.indicators.rsi.oversold = 30`. -/
def rsiOversoldThreshold : ℚ := 30

/-- The constant `config.indicators.rsi.overbought = 70`. -/
def rsiOverboughtThreshold : ℚ := 70

/- ## IndicatorCalculator (`src/bot-service/monitoring/IndicatorCalculator.js`) -/

/-- The `indicators` record held by `IndicatorCalculator`; `null` values are
`none`. -/
structure Indicators where
  rsi : Option ℚ
  ema : Option ℚ
  previousRsi : Option ℚ
  previousEma : Option ℚ
deriving DecidableEq

/-- Source `IndicatorCalculator.isRsiOversold`:
`this.indicators.rsi !== null && this.indicators.rsi < config.indicators.rsi.oversold`. -/
def isRsiOversold (ind : Indicators) : Bool :=
  match ind.rsi with
  | none => false
  | some r => decide (r < rsiOversoldThreshold)

/-- Source `IndicatorCalculator.isRsiOverbought`:
`this.indicators.rsi !== null && this.indicators.rsi > config.indicators.rsi.overbought`. -/
def isRsiOverbought (ind : Indicators) : Bool :=
  match ind.rsi with
  | none => false
  | some r => decide (r > rsiOverboughtThreshold)

/-- Source `IndicatorCalculator.isPriceAboveEma`:
`this.indicators.ema !== null && currentPrice > this.indicators.ema`. -/
def isPriceAboveEma (ind : Indicators) (currentPrice : ℚ) : Bool :=
  match ind.ema with
  | none => false
  | some e => decide (currentPrice > e)

/-- Source `IndicatorCalculator.isPriceBelowEma`:
`this.indicators.ema !== null && currentPrice < this.indicators.ema`. -/
def isPriceBelowEma (ind : Indicators) (currentPrice : ℚ) : Bool :=
  match ind.ema with
  | none => false
  | some e => decide (currentPrice < e)

/- ## SignalDetector (`src/trading/SignalDetector.js`, second part of `src/index.js`) -/

/-- The position kinds `PositionManager` stores: the string `'long'` (the
JavaScript `null` state is `Option.none` around this type). -/
inductive PosType | long
deriving DecidableEq

/-- The market state the signal detector reads: `BinanceService.getCurrentPrice()`,
`DexPriceMonitor.getCurrentPrice()` and `IndicatorCalculator`'s indicators.
The two `lastUpdated` fields mirror the update timestamps kept by the feed
services (`TaapiService.currentData.lastUpdated`); the signal path never reads
them, which the staleness theorems make explicit. -/
structure MarketState where
  binancePrice : ℚ
  dexPrice : ℚ
  indicators : Indicators
  binanceLastUpdated : Option ℤ
  dexLastUpdated : Option ℤ
deriving DecidableEq

/-- Source `SignalDetector.checkBuySignal(currentPosition)`: returns `false` unless
`currentPosition === null`; otherwise requires RSI oversold, Binance price
above EMA and `(binancePrice - dexPrice) / dexPrice > minProfitThreshold`. -/
def checkBuySignal (currentPosition : Option PosType) (m : MarketState) : Bool :=
  match currentPosition with
  | some _ => false
  | none =>
      isRsiOversold m.indicators &&
      isPriceAboveEma m.indicators m.binancePrice &&
      decide ((m.binancePrice - m.dexPrice) / m.dexPrice > minProfitThreshold)

/-- Source `SignalDetector.checkSellSignal(currentPosition)`: returns `false` unless
`currentPosition === 'long'`; otherwise requires RSI overbought, Binance price
below EMA and `(dexPrice - binancePrice) / binancePrice > minProfitThreshold`
(note: the sell-side gap is recomputed with the Binance price as denominator). -/
def checkSellSignal (currentPosition : Option PosType) (m : MarketState) : Bool :=
  match currentPosition with
  | none => false
  | some PosType.long =>
      isRsiOverbought m.indicators &&
      isPriceBelowEma m.indicators m.binancePrice &&
      decide ((m.dexPrice - m.binancePrice) / m.binancePrice > minProfitThreshold)

/-- The sell-side gap condition exactly as the specification words it:
`-priceGapPct > minProfitThreshold` with
`priceGapPct = (referencePrice - dexPrice) / dexPrice`.  Written from the
spec's words (not from the source) to compare against `checkSellSignal`. -/
def specSellGapCondition (m : MarketState) : Bool :=
  decide (-((m.binancePrice - m.dexPrice) / m.dexPrice) > minProfitThreshold)

/-- Modelled from the spec: the repository contains no `isStale()` and no
staleness window; the spec's freshness rule says a snapshot is usable only if
both the reference side and the DEX side were updated within 2x each feed's
nominal refresh interval (TAAPI refresh 60000 ms, DEX poll 15000 ms), so a
snapshot is stale when either side's age exceeds its window, or was never
stamped at all.  `now` and the stored timestamps are in milliseconds. -/
def isStaleSpec (m : MarketState) (now : ℤ) : Bool :=
  match m.binanceLastUpdated, m.dexLastUpdated with
  | some tb, some td => decide (now - tb > 2 * 60000 ∨ now - td > 2 * 15000)
  | _, _ => true

/- ## MonitoringService (`src/monitoring/MonitoringService.js`) and
     DexPriceMonitor (`src/monitoring/DexPriceMonitor.js`) gap computation -/

/-- Source `MonitoringService.updatePriceDifference`, as a function of the two stored
prices: `0` when `centralized.price === 0 || dex.price === 0`, otherwise
`(centralized.price - dex.price) / dex.price`. -/
def updatePriceDifference (centralizedPrice dexPrice : ℚ) : ℚ :=
  if centralizedPrice = 0 ∨ dexPrice = 0 then 0
  else (centralizedPrice - dexPrice) / dexPrice

/-- Source `DexPriceMonitor.calculatePriceDifference(binancePrice)`: `0` when
`this.price === 0 || binancePrice === 0`, otherwise
`(binancePrice - this.price) / this.price`. -/
def calculatePriceDifference (storedDexPrice binancePrice : ℚ) : ℚ :=
  if storedDexPrice = 0 ∨ binancePrice = 0 then 0
  else (binancePrice - storedDexPrice) / storedDexPrice

/- ## PositionManager (`src/trading/PositionManager.js`) -/

/-- The mutable fields of the `PositionManager` singleton; all start as
JavaScript `null`. -/
structure PMState where
  currentPosition : Option PosType
  entryPrice : Option ℚ
  highestPrice : Option ℚ
deriving DecidableEq

/-- The constructor state: `null`, `null`, `null`. -/
def initialPMState : PMState := ⟨none, none, none⟩

/-- Source `PositionManager.openPosition(entryPrice)`: sets `currentPosition = 'long'`
and `entryPrice = highestPrice = entryPrice`. -/
def openPosition (entryPrice : ℚ) (_s : PMState) : PMState :=
  ⟨some PosType.long, some entryPrice, some entryPrice⟩

/-- Source `PositionManager.updateHighestPrice(currentPrice)`: raises `highestPrice`
to `currentPrice` when `this.currentPosition` is truthy and
`currentPrice > this.highestPrice` (JavaScript compares `null` as `0`, hence
`getD 0`). -/
def updateHighestPrice (currentPrice : ℚ) (s : PMState) : PMState :=
  if s.currentPosition.isSome ∧ currentPrice > s.highestPrice.getD 0 then
    { s with highestPrice := some currentPrice }
  else s

/-- The record `PositionManager.closePosition` hands to its
`onPositionClosed` callback. -/
structure ClosedPosition where
  type : PosType
  entryPrice : ℚ
  exitPrice : ℚ
  profitPercent : ℚ
deriving DecidableEq

/-- Source `PositionManager.closePosition(exitPrice)`: when no position is open it
logs a warning and returns, leaving the state untouched and invoking no
callback (`none` in the second component); otherwise it computes
`profitPercent = (exitPrice - entryPrice) / entryPrice * 100`, emits the
closed-position record and resets all three fields to `null`.  (`entryPrice`
is always set while a position is open, so `getD 0` is never the taken
branch on reachable states.) -/
def closePosition (exitPrice : ℚ) (s : PMState) : PMState × Option ClosedPosition :=
  match s.currentPosition with
  | none => (s, none)
  | some t =>
      let entry := s.entryPrice.getD 0
      let profitPercent := (exitPrice - entry) / entry * 100
      (initialPMState, some ⟨t, entry, exitPrice, profitPercent⟩)

/-- Source `PositionManager.shouldTriggerStopLoss(currentPrice)`: `false` when
`!this.currentPosition || !this.highestPrice` (JavaScript falsiness: `null`
or `0`); otherwise `currentPrice < highestPrice * (1 - trailingStopLoss)`. -/
def shouldTriggerStopLoss (currentPrice : ℚ) (s : PMState) : Bool :=
  match s.currentPosition, s.highestPrice with
  | none, _ => false
  | some _, none => false
  | some _, some h =>
      if h = 0 then false
      else decide (currentPrice < h * (1 - trailingStopLoss))

/- ## SlippageController (`src/risk/SlippageController.js`) -/

/-- Which swap direction a trade takes; `applySlippage` receives it only for
logging. -/
inductive TradeType | buy | sell
deriving DecidableEq

/-- Source value `Math.floor((1 - config.trading.maxSlippage) * 10000)`; the float product
is exactly `9980`, so the exact-arithmetic floor agrees with the source. -/
def slippageFactor : ℕ := (⌊(1 - maxSlippage) * 10000⌋).toNat

/-- Source `SlippageController.applySlippage(amount, tradeType)`:
`amount.mul(slippageFactor).div(10000)` on integer `BigNumber`s — integer
multiplication followed by truncating division.  Amounts are token amounts in
smallest units, hence `ℕ`. -/
def applySlippage (amount : ℕ) (_tradeType : TradeType) : ℕ :=
  amount * slippageFactor / 10000

/-- Definition of `minAcceptable` exactly as the specification words it:
`expectedOut * (1 - maxSlippagePct)` (so that `minAcceptable(100) = 99.8`).
Written from the spec's words to compare against `applySlippage`. -/
def specMinAcceptable (expectedOut : ℚ) : ℚ :=
  expectedOut * (1 - maxSlippage)

/- ## TradeExecutor (`src/bot-service/trading/TradingExecutor.js`)

`executeBuy`/`executeSell` are `async` functions over a shared singleton; the
`await` points (capital fetch, router quote, swap, receipt) let other calls
interleave.  Each call is embedded as a small program counter over atomic
segments, and a scheduler interleaves two in-flight calls over the shared
`transactions` list.  The result type includes a constructor for the
`ExecutionBusyError` rejection the specification describes, so its absence
from every reachable outcome is a statable property — the source has no
in-progress flag and never produces it. -/

/-- The trade record pushed onto `this.transactions`: side, `amountIn` and
the quoted `amountsOut[1]`. -/
structure TradeRecord where
  type : TradeType
  amountIn : ℕ
  amountOut : ℕ
deriving DecidableEq

/-- Outcome of one `executeBuy`/`executeSell` call: the `return false` path
when the balance is not positive, the returned trade record, or the busy
rejection the spec postulates (never produced by the source). -/
inductive SubmitResult
  | insufficientBalance
  | filled (r : TradeRecord)
  | executionBusy
deriving DecidableEq

/-- The external collaborators' responses for one call: the side, the amount
`CapitalAllocator.getTradeAmount` / `wbtcToken.balanceOf` reports, and the
router quote `amountsOut[1]`. -/
structure SubmitEnv where
  type : TradeType
  tradeAmount : ℕ
  expectedOut : ℕ
deriving DecidableEq

/-- One in-flight `executeBuy`/`executeSell` call: its environment, program
counter over the atomic segments, and its result once finished. -/
structure CallState where
  env : SubmitEnv
  pc : ℕ
  result : Option SubmitResult
deriving DecidableEq

/-- The shared mutable executor state: `this.transactions`. -/
structure ExecutorState where
  transactions : List TradeRecord
deriving DecidableEq

/-- A call that has just been invoked. -/
def newCall (env : SubmitEnv) : CallState := ⟨env, 0, none⟩

/-- One atomic segment of `executeBuy`/`executeSell`.
* `pc = 0`: the balance gate (`tradeAmount.lte(0)` / `wbtcBalance.lte(0)`),
  the only early return in the source; it reads no shared executor state.
* `pc = 1`: the awaited router quote, `applySlippage` and the swap itself.
* `pc = 2`: push the trade record and return it.
* `pc = 3`: finished. -/
def stepCall (c : CallState) (s : ExecutorState) : CallState × ExecutorState :=
  match c.pc with
  | 0 =>
      if c.env.tradeAmount = 0 then
        ({ c with pc := 3, result := some SubmitResult.insufficientBalance }, s)
      else ({ c with pc := 1 }, s)
  | 1 => ({ c with pc := 2 }, s)
  | 2 =>
      let r : TradeRecord := ⟨c.env.type, c.env.tradeAmount, c.env.expectedOut⟩
      ({ c with pc := 3, result := some (SubmitResult.filled r) },
        ⟨s.transactions ++ [r]⟩)
  | _ => (c, s)

/-- Interleave two concurrent submit calls under a schedule: `true` steps the
first call, `false` the second. -/
def runSubmits (sched : List Bool) (c1 c2 : CallState) (s : ExecutorState) :
    CallState × CallState × ExecutorState :=
  match sched with
  | [] => (c1, c2, s)
  | b :: rest =>
      if b then
        let p := stepCall c1 s
        runSubmits rest p.1 c2 p.2
      else
        let p := stepCall c2 s
        runSubmits rest c1 p.1 p.2

/- ## MonitoringService snapshot sharing (`getCurrentData`)

`getCurrentData` returns `{ ...this.marketData }`: a fresh object whose
top-level fields are copied, but whose `centralized` and `dex` fields are the
same nested objects by reference.  The embedding makes the references
explicit: nested objects live in an addressed heap, market-data objects hold
addresses, and `getCurrentData` allocates a fresh market-data object copying
the field values (addresses included). -/

/-- The nested `marketData.centralized` object. -/
structure CentralizedData where
  price : ℚ
  rsi : Option ℚ
  ema : Option ℚ
deriving DecidableEq

/-- The nested `marketData.dex` object. -/
structure DexData where
  price : ℚ
deriving DecidableEq

/-- A market-data object: references to its nested objects plus its scalar
fields. -/
structure MarketDataObj where
  centralizedRef : ℕ
  dexRef : ℕ
  priceDifference : ℚ
deriving DecidableEq

/-- The object heap: market-data objects, centralized objects and dex objects
by address, plus the next fresh address. -/
structure MonHeap where
  mdAt : ℕ → MarketDataObj
  centralizedAt : ℕ → CentralizedData
  dexAt : ℕ → DexData
  nextAddr : ℕ

/-- The monitoring-service state: the heap and the address of the service's
own `this.marketData` object. -/
structure MonState where
  heap : MonHeap
  marketDataRef : ℕ

/-- Source `MonitoringService.getCurrentData()`: `{ ...this.marketData }` — allocate
a fresh market-data object whose three fields are copied from the internal
one (the nested references are copied as references).  Returns the updated
state and the address handed to the consumer. -/
def getCurrentData (st : MonState) : MonState × ℕ :=
  let md := st.heap.mdAt st.marketDataRef
  let addr := st.heap.nextAddr
  ({ st with heap :=
      { st.heap with
        mdAt := Function.update st.heap.mdAt addr md
        nextAddr := addr + 1 } }, addr)

/-- A consumer mutation of a top-level field of the object at `r`:
`snap.priceDifference = v`. -/
def consumerSetPriceDifference (st : MonState) (r : ℕ) (v : ℚ) : MonState :=
  let md := st.heap.mdAt r
  { st with heap :=
      { st.heap with mdAt := Function.update st.heap.mdAt r { md with priceDifference := v } } }

/-- A consumer mutation of a nested field through the object at `r`:
`snap.dex.price = v`. -/
def consumerSetDexPrice (st : MonState) (r : ℕ) (v : ℚ) : MonState :=
  let md := st.heap.mdAt r
  { st with heap :=
      { st.heap with dexAt := Function.update st.heap.dexAt md.dexRef ⟨v⟩ } }

/-- A consumer mutation of a nested centralized field through the object at
`r`: `snap.centralized.price = v`. -/
def consumerSetCentralizedPrice (st : MonState) (r : ℕ) (v : ℚ) : MonState :=
  let md := st.heap.mdAt r
  let c := st.heap.centralizedAt md.centralizedRef
  { st with heap :=
      { st.heap with
        centralizedAt := Function.update st.heap.centralizedAt md.centralizedRef { c with price := v } } }

/-- The aggregator's internal market data, fully dereferenced: what the
service itself sees through `this.marketData`. -/
def internalView (st : MonState) : CentralizedData × DexData × ℚ :=
  let md := st.heap.mdAt st.marketDataRef
  (st.heap.centralizedAt md.centralizedRef, st.heap.dexAt md.dexRef, md.priceDifference)

/- ## Concrete snapshots used by the claims -/

/-- Snapshot where RSI is oversold and the price is above the EMA, but the
buy-side gap is zero: both prices `50100`, RSI `25`, EMA `50000`. -/
def buySnapshotNoGap : MarketState :=
  ⟨50100, 50100, ⟨some 25, some 50000, none, none⟩, none, none⟩

/-- Snapshot where RSI is oversold and the gap is ample (`1100/49000`), but
the price `50100` is not above the EMA `50200`. -/
def buySnapshotNoEma : MarketState :=
  ⟨50100, 49000, ⟨some 25, some 50200, none, none⟩, none, none⟩

/-- Snapshot where the price is above the EMA and the gap is ample, but RSI
`50` is not oversold. -/
def buySnapshotNoRsi : MarketState :=
  ⟨50100, 49000, ⟨some 50, some 50000, none, none⟩, none, none⟩

/-- Snapshot separating the two sell-side gap conventions: Binance `1000`,
DEX `1006.02`, RSI `75` (overbought), EMA `1001` (price below it).  The
source's gap `(dex - binance) / binance = 301/50000 = 0.00602` exceeds the
`0.006` threshold, while the spec's `-(binance - dex)/dex = 301/50301`
(about `0.005984`) does not. -/
def sellSnapshotDenomGap : MarketState :=
  ⟨1000, 50301 / 50, ⟨some 75, some 1001, none, none⟩, none, none⟩

/-- Snapshot whose data is far older than any staleness window (stamped at
time `0`) yet satisfies every buy condition. -/
def staleBuySnapshot : MarketState :=
  ⟨50100, 49000, ⟨some 25, some 50000, none, none⟩, some 0, some 0⟩

/-- A concrete monitoring-service state: the internal market-data object at
address `0` references centralized and dex objects at address `0`. -/
def monState0 : MonState :=
  { heap :=
      { mdAt := fun _ => ⟨0, 0, 1 / 100⟩
        centralizedAt := fun _ => ⟨50000, some 40, some 49900⟩
        dexAt := fun _ => ⟨49500⟩
        nextAddr := 1 }
    marketDataRef := 0 }

/- ## Helper lemmas -/

/-- The invariant `PositionManager` maintains from `openPosition` on: the
position is long, the entry price is the opening price, and the highest
price is set and at least the entry price. -/
def PMInv (e : ℚ) (s : PMState) : Prop :=
  s.currentPosition = some PosType.long ∧ s.entryPrice = some e ∧
    ∃ h, s.highestPrice = some h ∧ e ≤ h

theorem updateHighestPrice_inv {e : ℚ} (p : ℚ) {s : PMState} (hs : PMInv e s) :
    PMInv e (updateHighestPrice p s) := by
  obtain ⟨hpos, hentry, h, hh, hle⟩ := hs
  unfold updateHighestPrice
  split
  · next hcond =>
      exact ⟨hpos, hentry, p, rfl,
        le_of_lt (lt_of_le_of_lt hle (by simpa [hh] using hcond.2))⟩
  · exact ⟨hpos, hentry, h, hh, hle⟩

theorem foldl_updateHighestPrice_inv {e : ℚ} (us : List ℚ) {s : PMState}
    (hs : PMInv e s) :
    PMInv e (us.foldl (fun s p => updateHighestPrice p s) s) := by
  induction us generalizing s with
  | nil => exact hs
  | cons u rest ih => exact ih (updateHighestPrice_inv u hs)

theorem updateHighestPrice_mono (p : ℚ) (s : PMState) :
    s.highestPrice.getD 0 ≤ (updateHighestPrice p s).highestPrice.getD 0 := by
  unfold updateHighestPrice
  by_cases hc : s.currentPosition.isSome ∧ p > s.highestPrice.getD 0
  · simp only [hc, if_true]
    exact le_of_lt hc.2
  · simp [hc]

/-- The position state after opening at `e` and applying the price updates
`us` in order through `updateHighestPrice`. -/
def posAfter (e : ℚ) (us : List ℚ) : PMState :=
  us.foldl (fun s p => updateHighestPrice p s) (openPosition e initialPMState)

theorem posAfter_inv (e : ℚ) (us : List ℚ) : PMInv e (posAfter e us) :=
  foldl_updateHighestPrice_inv us ⟨rfl, rfl, e, rfl, le_refl e⟩

theorem stepCall_not_busy (c : CallState) (s : ExecutorState)
    (h : c.result ≠ some SubmitResult.executionBusy) :
    (stepCall c s).1.result ≠ some SubmitResult.executionBusy := by
  obtain ⟨env, pc, result⟩ := c
  match pc with
  | 0 =>
      by_cases he : env.tradeAmount = 0
      · simp [stepCall, he]
      · simpa [stepCall, he] using h
  | 1 => simpa [stepCall] using h
  | 2 => simp [stepCall]
  | (n + 3) => simpa [stepCall] using h

theorem runSubmits_not_busy (sched : List Bool) (c1 c2 : CallState)
    (s : ExecutorState) (h1 : c1.result ≠ some SubmitResult.executionBusy)
    (h2 : c2.result ≠ some SubmitResult.executionBusy) :
    (runSubmits sched c1 c2 s).1.result ≠ some SubmitResult.executionBusy ∧
      (runSubmits sched c1 c2 s).2.1.result ≠ some SubmitResult.executionBusy := by
  induction sched generalizing c1 c2 s with
  | nil => exact ⟨h1, h2⟩
  | cons b rest ih =>
      cases b with
      | true => exact ih _ _ _ (stepCall_not_busy c1 s h1) h2
      | false => exact ih _ _ _ h1 (stepCall_not_busy c2 s h2)

theorem slippageFactor_eq : slippageFactor = 9980 := by
  unfold slippageFactor maxSlippage
  rw [show ((1 : ℚ) - 2 / 1000) * 10000 = ((9980 : ℤ) : ℚ) by norm_num,
    Int.floor_intCast]
  rfl

/- ## Claim theorems -/

/-- C1: a BUY signal is produced only when the position is FLAT (`null`), and
in that case exactly when RSI is oversold, the Binance price is above the
EMA, and the price gap exceeds `minProfitThreshold` — a conjunction of all
three; the further conjuncts show a strict subset of the three conditions
never suffices (for each pair of conditions there is a snapshot satisfying
that pair alone, and no signal is produced). -/
theorem checkBuySignal_flat_conjunction :
    (∀ (pos : Option PosType) (m : MarketState),
        checkBuySignal pos m = true ↔
          pos = none ∧ isRsiOversold m.indicators = true ∧
            isPriceAboveEma m.indicators m.binancePrice = true ∧
            (m.binancePrice - m.dexPrice) / m.dexPrice > minProfitThreshold)
    ∧ (isRsiOversold buySnapshotNoGap.indicators = true ∧
        isPriceAboveEma buySnapshotNoGap.indicators buySnapshotNoGap.binancePrice = true ∧
        checkBuySignal none buySnapshotNoGap = false)
    ∧ (isRsiOversold buySnapshotNoEma.indicators = true ∧
        (buySnapshotNoEma.binancePrice - buySnapshotNoEma.dexPrice) / buySnapshotNoEma.dexPrice >
          minProfitThreshold ∧
        checkBuySignal none buySnapshotNoEma = false)
    ∧ (isPriceAboveEma buySnapshotNoRsi.indicators buySnapshotNoRsi.binancePrice = true ∧
        (buySnapshotNoRsi.binancePrice - buySnapshotNoRsi.dexPrice) / buySnapshotNoRsi.dexPrice >
          minProfitThreshold ∧
        checkBuySignal none buySnapshotNoRsi = false) := by
  refine ⟨fun pos m => ?_,
    by norm_num [checkBuySignal, isRsiOversold, isPriceAboveEma, buySnapshotNoGap,
      rsiOversoldThreshold, minProfitThreshold],
    by norm_num [checkBuySignal, isRsiOversold, isPriceAboveEma, buySnapshotNoEma,
      rsiOversoldThreshold, minProfitThreshold],
    by norm_num [checkBuySignal, isRsiOversold, isPriceAboveEma, buySnapshotNoRsi,
      rsiOversoldThreshold, minProfitThreshold]⟩
  cases pos with
  | none => simp [checkBuySignal, and_assoc]
  | some t => simp [checkBuySignal]

/-- C2 counterexample: at `sellSnapshotDenomGap` (position LONG, RSI
overbought, price below EMA) the source produces a SELL signal although the
claim's gap test `-priceGapPct > minProfitThreshold`, with
`priceGapPct = (referencePrice - dexPrice) / dexPrice`, fails — so the
sell-side gap is not the negation of that quantity but is recomputed with
the reference price as denominator. -/
theorem checkSellSignal_denominator_cex :
    checkSellSignal (some PosType.long) sellSnapshotDenomGap = true ∧
      specSellGapCondition sellSnapshotDenomGap = false := by
  norm_num [checkSellSignal, specSellGapCondition, isRsiOverbought, isPriceBelowEma,
    sellSnapshotDenomGap, rsiOverboughtThreshold, minProfitThreshold]

/-- C2 amended: a SELL signal is produced only when the position is LONG, and
in that case exactly when RSI is overbought, the Binance price is below the
EMA, and `(dexPrice - referencePrice) / referencePrice > minProfitThreshold`
— the gap recomputed with the reference (Binance) price as denominator. -/
theorem checkSellSignal_long_conjunction :
    ∀ (pos : Option PosType) (m : MarketState),
      checkSellSignal pos m = true ↔
        pos = some PosType.long ∧ isRsiOverbought m.indicators = true ∧
          isPriceBelowEma m.indicators m.binancePrice = true ∧
          (m.dexPrice - m.binancePrice) / m.binancePrice > minProfitThreshold := by
  intro pos m
  cases pos with
  | none => simp [checkSellSignal]
  | some t => cases t; simp [checkSellSignal, and_assoc]

/-- C4 counterexample: `staleBuySnapshot` was stamped at time `0`; at time
`1000000` ms both feed sides are far older than the spec's staleness windows
(2 x 60000 ms and 2 x 15000 ms), yet the signal path still produces a BUY
signal — stale snapshots are not prevented from producing signals. -/
theorem stale_snapshot_still_signals_cex :
    isStaleSpec staleBuySnapshot 1000000 = true ∧
      checkBuySignal none staleBuySnapshot = true := by
  norm_num [isStaleSpec, checkBuySignal, isRsiOversold, isPriceAboveEma,
    staleBuySnapshot, rsiOversoldThreshold, minProfitThreshold]

/-- C4 amended: the signal path performs no staleness check at all — both
`checkBuySignal` and `checkSellSignal` are invariant under arbitrary changes
to the feeds' update timestamps, so a stale snapshot is evaluated exactly
like a fresh one. -/
theorem signal_ignores_staleness :
    ∀ (pos : Option PosType) (m : MarketState) (tb td : Option ℤ),
      checkBuySignal pos { m with binanceLastUpdated := tb, dexLastUpdated := td } =
          checkBuySignal pos m ∧
        checkSellSignal pos { m with binanceLastUpdated := tb, dexLastUpdated := td } =
          checkSellSignal pos m := by
  intro pos m tb td
  cases m
  exact ⟨rfl, rfl⟩

/-- C5: both gap computations return exactly `0` when either side's price is
`0` (so the guarded division is never taken with a zero denominator), and
otherwise return `(referencePrice - dexPrice) / dexPrice`. -/
theorem priceDifference_zero_guard :
    (∀ c d : ℚ, c = 0 ∨ d = 0 → updatePriceDifference c d = 0)
    ∧ (∀ c d : ℚ, c ≠ 0 → d ≠ 0 → updatePriceDifference c d = (c - d) / d)
    ∧ (∀ p b : ℚ, p = 0 ∨ b = 0 → calculatePriceDifference p b = 0)
    ∧ (∀ p b : ℚ, p ≠ 0 → b ≠ 0 → calculatePriceDifference p b = (b - p) / p) := by
  refine ⟨fun c d h => ?_, fun c d hc hd => ?_, fun p b h => ?_, fun p b hp hb => ?_⟩
  · simp [updatePriceDifference, h]
  · simp [updatePriceDifference, hc, hd]
  · simp [calculatePriceDifference, h]
  · simp [calculatePriceDifference, hp, hb]

/-- C5 witness: the theorem evaluated at concrete prices. -/
theorem priceDifference_zero_guard_witness :
    updatePriceDifference 0 5 = 0 ∧ updatePriceDifference 7 5 = 2 / 5 ∧
      calculatePriceDifference 5 0 = 0 ∧ calculatePriceDifference 5 7 = 2 / 5 := by
  refine ⟨priceDifference_zero_guard.1 0 5 (Or.inl rfl), ?_,
    priceDifference_zero_guard.2.2.1 5 0 (Or.inr rfl), ?_⟩
  · rw [priceDifference_zero_guard.2.1 7 5 (by norm_num) (by norm_num)]; norm_num
  · rw [priceDifference_zero_guard.2.2.2 5 7 (by norm_num) (by norm_num)]; norm_num

/-- C6: for every entry price and every sequence of price updates applied
after `openPosition` (duplicates and out-of-order values included), the
entry price stays fixed, the highest price is always set and at least the
entry price, and appending one more update never decreases it. -/
theorem peakPrice_monotone_ge_entry :
    ∀ (e : ℚ) (us : List ℚ) (p : ℚ),
      (posAfter e us).entryPrice = some e ∧
        (∃ h, (posAfter e us).highestPrice = some h ∧ e ≤ h) ∧
        (posAfter e us).highestPrice.getD 0 ≤
          (posAfter e (us ++ [p])).highestPrice.getD 0 := by
  intro e us p
  obtain ⟨hpos, hentry, hh⟩ := posAfter_inv e us
  refine ⟨hentry, hh, ?_⟩
  have : posAfter e (us ++ [p]) = updateHighestPrice p (posAfter e us) := by
    simp [posAfter, List.foldl_append]
  rw [this]
  exact updateHighestPrice_mono p (posAfter e us)

/-- C7: `shouldTriggerStopLoss(currentPrice)` is `false` whenever no position
is open, and with an open LONG position whose (positive) peak price is `h` it
is `true` exactly when `currentPrice < h * (1 - trailingStopLoss)`; at the
spec's scenario (entry 50000, peak 51000, current 50700) it triggers, since
`50700 < 51000 * 0.995 = 50745`.  (Positivity of the peak reflects that
JavaScript's `!this.highestPrice` also guards the value `0`.) -/
theorem shouldTriggerStopLoss_spec :
    (∀ (s : PMState) (p h : ℚ), s.currentPosition = some PosType.long →
        s.highestPrice = some h → 0 < h →
        (shouldTriggerStopLoss p s = true ↔ p < h * (1 - trailingStopLoss)))
    ∧ (∀ (s : PMState) (p : ℚ), s.currentPosition = none →
        shouldTriggerStopLoss p s = false)
    ∧ shouldTriggerStopLoss 50700 ⟨some PosType.long, some 50000, some 51000⟩ = true := by
  refine ⟨fun s p h hpos hh hpos' => ?_, fun s p hpos => ?_, ?_⟩
  · obtain ⟨cp, ep, hp⟩ := s
    cases hpos; cases hh
    simp [shouldTriggerStopLoss, ne_of_gt hpos']
  · obtain ⟨cp, ep, hp⟩ := s
    cases hpos
    simp [shouldTriggerStopLoss]
  · norm_num [shouldTriggerStopLoss, trailingStopLoss]

/-- C7 witness: the stop-loss predicate evaluated through the theorem at the
spec scenario and at the flat initial state. -/
theorem shouldTriggerStopLoss_spec_witness :
    shouldTriggerStopLoss 50700 ⟨some PosType.long, some 50000, some 51000⟩ = true ∧
      shouldTriggerStopLoss 1 initialPMState = false :=
  ⟨(shouldTriggerStopLoss_spec.1 ⟨some PosType.long, some 50000, some 51000⟩
      50700 51000 rfl rfl (by norm_num)).mpr (by norm_num [trailingStopLoss]),
    shouldTriggerStopLoss_spec.2.1 initialPMState 1 rfl⟩

/-- C8 counterexample: the source computes `applySlippage` by integer
`BigNumber` multiplication and truncating division, so at `expectedOut = 100`
it returns `99`, not the spec scenario's exact `99.8`. -/
theorem applySlippage_scenario_cex :
    applySlippage 100 TradeType.buy = 99 ∧
      (applySlippage 100 TradeType.buy : ℚ) ≠ specMinAcceptable 100 := by
  constructor
  · rw [applySlippage, slippageFactor_eq]
  · rw [applySlippage, slippageFactor_eq]
    norm_num [specMinAcceptable, maxSlippage]

/-- C8 amended: for every expected output amount (in smallest integer units)
and either trade side, `applySlippage` returns
`expectedOut * (1 - maxSlippage)` rounded down, identically for buy and
sell; at `expectedOut = 100` the result is `99` (the exact value `99.8`
rounded down). -/
theorem applySlippage_floor_symmetric :
    (∀ (a : ℕ) (t t' : TradeType), applySlippage a t = applySlippage a t')
    ∧ (∀ (a : ℕ) (t : TradeType), applySlippage a t = ⌊(a : ℚ) * (1 - maxSlippage)⌋₊)
    ∧ applySlippage 100 TradeType.buy = 99 := by
  refine ⟨fun a t t' => rfl, fun a t => ?_, by rw [applySlippage, slippageFactor_eq]⟩
  have h1 : (a : ℚ) * (1 - maxSlippage) = ((a * 9980 : ℕ) : ℚ) / ((10000 : ℕ) : ℚ) := by
    push_cast [maxSlippage]
    ring
  rw [applySlippage, slippageFactor_eq, h1, Nat.floor_div_nat, Nat.floor_natCast]

/-- C3 counterexample: two interleaved submit calls (a buy and a sell with
positive balances, alternating at every suspension point so each runs while
the other is active) both run to completion and both append their trade
records — neither call is rejected, where the claim requires exactly one to
proceed and the other to receive `ExecutionBusyError`. -/
theorem concurrent_submits_both_proceed_cex :
    (runSubmits [true, false, true, false, true, false]
        (newCall ⟨TradeType.buy, 100, 200⟩) (newCall ⟨TradeType.sell, 50, 80⟩)
        ⟨[]⟩).1.result = some (SubmitResult.filled ⟨TradeType.buy, 100, 200⟩) ∧
      (runSubmits [true, false, true, false, true, false]
        (newCall ⟨TradeType.buy, 100, 200⟩) (newCall ⟨TradeType.sell, 50, 80⟩)
        ⟨[]⟩).2.1.result = some (SubmitResult.filled ⟨TradeType.sell, 50, 80⟩) ∧
      (runSubmits [true, false, true, false, true, false]
        (newCall ⟨TradeType.buy, 100, 200⟩) (newCall ⟨TradeType.sell, 50, 80⟩)
        ⟨[]⟩).2.2.transactions =
        [⟨TradeType.buy, 100, 200⟩, ⟨TradeType.sell, 50, 80⟩] := by decide

/-- C3 amended: the executor has no single-flight guard — under every
schedule interleaving two concurrent submit calls, neither call is ever
rejected with a busy error (the source contains no such check or error), and
in the fully interleaved run of two funded calls both proceed to completion
with a trade record. -/
theorem submit_never_rejected_busy :
    (∀ (sched : List Bool) (env1 env2 : SubmitEnv) (s : ExecutorState),
        (runSubmits sched (newCall env1) (newCall env2) s).1.result ≠
            some SubmitResult.executionBusy ∧
          (runSubmits sched (newCall env1) (newCall env2) s).2.1.result ≠
            some SubmitResult.executionBusy)
    ∧ (runSubmits [true, false, true, false, true, false]
        (newCall ⟨TradeType.buy, 300, 400⟩) (newCall ⟨TradeType.buy, 700, 800⟩)
        ⟨[]⟩).1.result = some (SubmitResult.filled ⟨TradeType.buy, 300, 400⟩) ∧
      (runSubmits [true, false, true, false, true, false]
        (newCall ⟨TradeType.buy, 300, 400⟩) (newCall ⟨TradeType.buy, 700, 800⟩)
        ⟨[]⟩).2.1.result = some (SubmitResult.filled ⟨TradeType.buy, 700, 800⟩) := by
  refine ⟨fun sched env1 env2 s => ?_, by decide, by decide⟩
  exact runSubmits_not_busy sched (newCall env1) (newCall env2) s
    (by simp [newCall]) (by simp [newCall])

/-- C9 counterexample: after taking a snapshot of `monState0` through
`getCurrentData` and assigning the snapshot's nested `dex.price`, the
aggregator's internal market data has changed — the nested objects of the
returned copy are shared with the internal state, so the snapshot is not an
immutable (deep) copy. -/
theorem snapshot_nested_mutation_leaks_cex :
    internalView (consumerSetDexPrice (getCurrentData monState0).1
        (getCurrentData monState0).2 12345) ≠ internalView monState0 := by
  norm_num [internalView, consumerSetDexPrice, getCurrentData, monState0,
    Function.update, DexData.mk.injEq, Prod.ext_iff]

/-- C9 amended: `getCurrentData` returns a shallow copy — reassigning a
top-level field of the returned object (here `priceDifference`) leaves the
internal market data unchanged, but assigning the nested `dex.price` or
`centralized.price` through the returned object mutates the aggregator's
internal state to the assigned value. -/
theorem getCurrentData_shallow_copy :
    ∀ (st : MonState) (v : ℚ), st.marketDataRef < st.heap.nextAddr →
      internalView (consumerSetPriceDifference (getCurrentData st).1
          (getCurrentData st).2 v) = internalView st ∧
        (internalView (consumerSetDexPrice (getCurrentData st).1
          (getCurrentData st).2 v)).2.1 = ⟨v⟩ ∧
        (internalView (consumerSetCentralizedPrice (getCurrentData st).1
          (getCurrentData st).2 v)).1.price = v := by
  intro st v hlt
  have hne : st.marketDataRef ≠ st.heap.nextAddr := Nat.ne_of_lt hlt
  refine ⟨?_, ?_, ?_⟩
  · simp [internalView, consumerSetPriceDifference, getCurrentData,
      Function.update_same, Function.update_noteq hne]
  · simp [internalView, consumerSetDexPrice, getCurrentData,
      Function.update_same, Function.update_noteq hne]
  · simp [internalView, consumerSetCentralizedPrice, getCurrentData,
      Function.update_same, Function.update_noteq hne]

/-- C9 witness: the amended theorem evaluated at `monState0`. -/
theorem getCurrentData_shallow_copy_witness :
    internalView (consumerSetPriceDifference (getCurrentData monState0).1
        (getCurrentData monState0).2 77) = internalView monState0 ∧
      (internalView (consumerSetDexPrice (getCurrentData monState0).1
        (getCurrentData monState0).2 77)).2.1 = ⟨77⟩ ∧
      (internalView (consumerSetCentralizedPrice (getCurrentData monState0).1
        (getCurrentData monState0).2 77)).1.price = 77 :=
  getCurrentData_shallow_copy monState0 77 (by norm_num [monState0])

/-- C10: calling `closePosition` while no position is open leaves the
position state entirely unchanged and invokes no closed-position callback
(the returned event is `none`), for every exit price. -/
theorem closePosition_noop_when_flat :
    ∀ (exitPrice : ℚ) (s : PMState), s.currentPosition = none →
      closePosition exitPrice s = (s, none) := by
  intro exitPrice s h
  obtain ⟨cp, ep, hp⟩ := s
  cases h
  rfl

/-- C10 witness: closing at a concrete price from the initial flat state. -/
theorem closePosition_noop_when_flat_witness :
    closePosition 123 initialPMState = (initialPMState, none) :=
  closePosition_noop_when_flat 123 initialPMState rfl

end TradingBot
